import Mathlib

/-!
Shallow embedding of the Weather-Prediction-Dashboard script `src/app.py`
(condition classification, advisory engine, forecast-window selection and
the view-model assembly of the main script body).

Modelling conventions:
* Timestamps are integers measured in hours (the forecast horizon of the
  reference UI is an integer number of hours), so the source expression
  `now + timedelta(hours=hours_ahead)` becomes `now + hoursAhead`.
* All numeric readings are rationals.
* A JSON field that may be absent is an `Option`; a dataframe column that
  may be absent is a per-column presence flag on the frame, since pandas
  column presence is uniform across rows.
* A Python expression that raises (KeyError on a missing dict key or
  dataframe column, IndexError on `iloc[0]` of an empty frame, NameError on
  an undefined variable, ValueError from `NaT.strftime` or a column-rename
  length mismatch) is modelled as `Except.error` carrying that message.
-/

/-- Theme descriptor: one entry of the CONDITION_THEMES table of app.py. -/
structure Theme where
  c1 : String
  c2 : String
  c3 : String
  emoji : String
  name : String
deriving DecidableEq

/-- CONDITION_THEMES table, app.py lines 79-86. -/
def CONDITION_THEMES : List (String × Theme) :=
  [("clear", ⟨"#657c87", "#9e978a", "#c78868", "☀️", "Clear"⟩),
   ("cloudy", ⟨"#90A5BA", "#5B7BAA", "#124E82", "⛅", "Cloudy"⟩),
   ("fog", ⟨"#ccb297", "#ae9377", "#231b12", "🌫️", "Fog"⟩),
   ("rain", ⟨"#4e5d7a", "#5b7ac0", "#8ec5fc", "🌧️", "Rain"⟩),
   ("storm", ⟨"#2d3748", "#4b5563", "#111827", "⛈️", "Storm"⟩),
   ("snow", ⟨"#92e6f6", "#c3e7ff", "#ffffff", "❄️", "Snow"⟩)]

/-- WMO_MAP dictionary, app.py lines 90-103. -/
def WMO_MAP : List (Int × String) :=
  [(0, "clear"),
   (1, "cloudy"), (2, "cloudy"), (3, "cloudy"),
   (45, "fog"), (48, "fog"),
   (51, "rain"), (53, "rain"), (55, "rain"),
   (56, "rain"), (57, "rain"),
   (61, "rain"), (63, "rain"), (65, "rain"),
   (66, "rain"), (67, "rain"),
   (71, "snow"), (73, "snow"), (75, "snow"),
   (77, "snow"),
   (80, "rain"), (81, "rain"), (82, "rain"),
   (85, "snow"), (86, "snow"),
   (95, "storm"), (96, "storm"), (99, "storm")]

/-- The set of WMO codes that appear as keys of WMO_MAP. -/
def wmoKeys : List Int := WMO_MAP.map Prod.fst

/-- Condition-key selection of app.py line 139: `WMO_MAP.get(wmo_code, "cloudy")`. -/
def classify (wmo_code : Int) : String :=
  (WMO_MAP.lookup wmo_code).getD ("cloudy")

/-- Theme selection of app.py lines 138-143: `CONDITION_THEMES[key]`, modelled
as an association-list lookup so a missing key would surface as `none`. -/
def set_theme_from_code (wmo_code : Int) : Option Theme :=
  CONDITION_THEMES.lookup (classify wmo_code)

/-- Current-conditions payload `data.get("current_weather", \x7b\x7d)`
(app.py line 208); each field may be absent. -/
structure CurrentW where
  temperature : Option ℚ
  windspeed : Option ℚ
  winddirection : Option ℚ
  weathercode : Option Int
  time : Option Int
deriving DecidableEq, Inhabited

/-- One row of the hourly dataframe (app.py line 235); the value of a column
that is absent from the frame is irrelevant and never read. -/
structure HourlyRow where
  time : Int
  temperature_2m : ℚ
  apparent_temperature : ℚ
  relativehumidity_2m : ℚ
  windspeed_10m : ℚ
  precipitation_probability : ℚ
deriving DecidableEq, Inhabited

/-- Hourly dataframe: rows plus per-column presence flags (the `time` column
is always present once the frame is non-empty, app.py line 239). -/
structure HourlyFrame where
  rows : List HourlyRow
  hasTemp : Bool
  hasApp : Bool
  hasHum : Bool
  hasWind : Bool
  hasPrecip : Bool
deriving DecidableEq, Inhabited

/-- One row of the daily dataframe (app.py line 236), restricted to the
columns the script reads. -/
structure DailyRow where
  temperature_2m_max : ℚ
  temperature_2m_min : ℚ
  apparent_temperature_max : ℚ
  sunrise : Int
  sunset : Int
  uv_index_max : ℚ
deriving DecidableEq, Inhabited

/-- Daily dataframe: rows plus per-column presence flags. -/
structure DailyFrame where
  rows : List DailyRow
  hasTempMax : Bool
  hasTempMin : Bool
  hasAppMax : Bool
  hasSunrise : Bool
  hasSunset : Bool
  hasUv : Bool
deriving DecidableEq, Inhabited

/-- A successfully fetched forecast payload (app.py lines 208, 235, 236). -/
structure Payload where
  current : CurrentW
  hourly : HourlyFrame
  daily : DailyFrame
deriving DecidableEq, Inhabited

/-- Friendly-message strings of app.py lines 252-271. -/
def scorchingMsg : String := "🔥 It\x27s scorching outside! Better stay indoors with a cool drink."

def sunnyMsg : String := "☀️ It\x27s quite sunny today. Don\x27t forget your sunglasses!"

def freezingMsg : String := "❄️ Brrr! It\x27s freezing out there. Dress warmly and sip something hot."

def coolMsg : String := "🌤️ It\x27s a cool day, perfect for a walk."

def strongWindMsg : String := "🌪️ Strong winds are blowing. Secure loose objects outside!"

def breezyMsg : String := "💨 Breezy day! A cap might fly away."

def umbrellaMsg : String := "🌧️ High chance of rain — take an umbrella!"

def showersMsg : String := "🌦️ You might get some showers later today."

def pleasantMsg : String := "🌈 Weather looks pleasant. Enjoy your day!"

/-- Alert strings of app.py lines 288-306. -/
def severeHeatMsg : String := "🔥 Severe Heat Alert: Stay hydrated, avoid peak sun."

def heatCautionMsg : String := "🥵 Heat Caution: Wear light clothing and drink water."

def galeMsg : String := "🌬️ Gale Warning: Secure loose items, avoid high places."

def highWindMsg : String := "💨 High Wind: Be cautious outdoors."

def rainSoonMsg : String := "🌧️ High chance of rain in next 6 hours. Carry an umbrella."

def uvMsg : String := "☀️ Extreme UV today. Use SPF 30+, hat & sunglasses."

/-- weather_message, app.py lines 251-271.  The three Python if/elif chains
behave as a single first-match cascade because every branch returns. -/
def weather_message (temp wind rain_prob : ℚ) : String :=
  if temp > 38 then scorchingMsg
  else if temp > 30 then sunnyMsg
  else if temp < 10 then freezingMsg
  else if temp < 18 then coolMsg
  else if wind > 40 then strongWindMsg
  else if wind > 20 then breezyMsg
  else if rain_prob > 70 then umbrellaMsg
  else if rain_prob > 40 then showersMsg
  else pleasantMsg

/-- Heat branch of the alert block, app.py lines 287-290. -/
def heatAlerts (t : ℚ) : List String :=
  if t ≥ 40 then [severeHeatMsg] else if t ≥ 35 then [heatCautionMsg] else []

/-- Wind branch of the alert block, app.py lines 293-296. -/
def windAlerts (w : ℚ) : List String :=
  if w ≥ 75 then [galeMsg] else if w ≥ 50 then [highWindMsg] else []

/-- Rain branch of the alert block, app.py lines 299-300. -/
def rainAlerts (r : ℚ) : List String :=
  if r ≥ 70 then [rainSoonMsg] else []

/-- UV branch of the alert block, app.py lines 305-306. -/
def uvAlerts (u : ℚ) : List String :=
  if u ≥ 8 then [uvMsg] else []

/-- The alert list built from the four derived readings, in source order
(heat, wind, rain, UV), app.py lines 284-306 with all inputs available. -/
def computeAlerts (t w r u : ℚ) : List String :=
  heatAlerts t ++ windAlerts w ++ rainAlerts r ++ uvAlerts u

/-- Maximum of a non-empty batch of rationals, used for
`hr.head(6)["precipitation_probability"].max()` (app.py line 298). -/
def listMax (q : ℚ) (qs : List ℚ) : ℚ := qs.foldl max q

/-- The `now` of app.py line 240: the current-conditions timestamp when
present, else the first hourly time. -/
def nowOf (current : CurrentW) (first : HourlyRow) : Int :=
  match current.time with
  | some t => t
  | none => first.time

/-- Window selection of app.py lines 241-242: boolean mask
`time >= now and time < now + hours_ahead`, then row filtering. -/
def selectWindow (series : List HourlyRow) (now horizonHours : Int) : List HourlyRow :=
  series.filter (fun p => decide (now ≤ p.time) && decide (p.time < now + horizonHours))

/-- Feels-like card fill of app.py lines 245-248. -/
def feelsStage (hourly : HourlyFrame) (hr : List HourlyRow) : Option ℚ :=
  if hourly.hasApp then
    match hr with
    | q :: _ => some q.apparent_temperature
    | [] => none
  else none

/-- `rain_probability` of app.py line 273.  When the precipitation column
exists but the window is empty, `hr.iloc[0]` raises IndexError. -/
def rainProbStage (hourly : HourlyFrame) (hr : List HourlyRow) : Except String ℚ :=
  if hourly.hasPrecip then
    match hr with
    | [] => Except.error ("IndexError: single positional indexer is out-of-bounds")
    | q :: _ => Except.ok q.precipitation_probability
  else Except.ok 0

/-- Alert block of app.py lines 284-306: all four checks are guarded by
`if not hr.empty`, and the UV check is additionally guarded by the daily
frame being non-empty and having a uv_index_max column. -/
def alertsStage (current : CurrentW) (hourly : HourlyFrame) (daily : DailyFrame)
    (hr : List HourlyRow) : List String :=
  match hr with
  | [] => []
  | q :: qs =>
    let tNow := if hourly.hasApp then q.apparent_temperature else current.temperature.getD 0
    let wsNow := current.windspeed.getD 0
    let rainNext6 :=
      if hourly.hasPrecip then
        listMax q.precipitation_probability ((qs.take 5).map (fun x => x.precipitation_probability))
      else 0
    let uvPart :=
      match daily.rows with
      | [] => []
      | d :: _ => if daily.hasUv then uvAlerts d.uv_index_max else []
    heatAlerts tNow ++ windAlerts wsNow ++ rainAlerts rainNext6 ++ uvPart

/-- Chart-presence flags of app.py lines 315-343. -/
def chartTempStage (hourly : HourlyFrame) (hr : List HourlyRow) : Bool :=
  !hr.isEmpty && (hourly.hasTemp || hourly.hasApp)

def chartPrecipStage (hourly : HourlyFrame) (hr : List HourlyRow) : Bool :=
  !hr.isEmpty && hourly.hasPrecip

def chartWindStage (hourly : HourlyFrame) (hr : List HourlyRow) : Bool :=
  !hr.isEmpty && hourly.hasWind

/-- Today-at-a-glance block of app.py lines 348-369: every one of the six
column reads is a bracket access on `daily.iloc[0]`, so a missing column
raises KeyError (the try/except inside fmt_time only guards the strftime,
not the column lookup that produces its argument). -/
def glanceStage (daily : DailyFrame) : Except String (Option DailyRow) :=
  match daily.rows with
  | [] => Except.ok none
  | d :: _ =>
    if daily.hasTempMax then
      if daily.hasTempMin then
        if daily.hasAppMax then
          if daily.hasSunrise then
            if daily.hasSunset then
              if daily.hasUv then Except.ok (some d)
              else Except.error ("KeyError: uv_index_max")
            else Except.error ("KeyError: sunset")
          else Except.error ("KeyError: sunrise")
        else Except.error ("KeyError: apparent_temperature_max")
      else Except.error ("KeyError: temperature_2m_min")
    else Except.error ("KeyError: temperature_2m_max")

/-- Next-hour rain bar of app.py lines 374-385; `int()` truncation of a
non-negative percentage is modelled by the floor. -/
def rainBarStage (hourly : HourlyFrame) (hr : List HourlyRow) : Option Int :=
  match hr with
  | q :: _ => if hourly.hasPrecip then some q.precipitation_probability.floor else none
  | [] => none

/-- Details table of app.py lines 390-400: the script selects whichever of
the six expected columns exist, then assigns exactly six new column names;
pandas raises ValueError on a length mismatch, so any missing hourly column
makes the table section fail. -/
def tableStage (showTable : Bool) (hourly : HourlyFrame) (hr : List HourlyRow) :
    Except String (Option (List HourlyRow)) :=
  if showTable && !hr.isEmpty then
    if hourly.hasTemp && hourly.hasApp && hourly.hasHum && hourly.hasPrecip && hourly.hasWind then
      Except.ok (some hr)
    else Except.error ("ValueError: Length mismatch")
  else Except.ok none

/-- Theme-code selection of app.py line 211: `int(current.get("weathercode", 1))`. -/
def themeStage (current : CurrentW) : String :=
  classify (current.weathercode.getD 1)

/-- The render-ready view model the script body assembles. -/
structure ViewModel where
  themeKey : String
  localTime : Int
  tempCard : Option ℚ
  windCard : Option ℚ
  dirCard : Option ℚ
  feelsCard : Option ℚ
  window : List HourlyRow
  friendly : String
  alerts : List String
  chartTemp : Bool
  chartPrecip : Bool
  chartWind : Bool
  glance : Option DailyRow
  rainBar : Option Int
  table : Option (List HourlyRow)
deriving DecidableEq, Inhabited

/-- The main script body of app.py, lines 208-400, from a fetched payload to
the rendered view model.  Error points, in source order:
* line 212: `pd.to_datetime(current.get("time")).strftime(...)` raises on a
  missing current timestamp (NaT has no strftime);
* line 285: if the hourly frame is empty the `if not hourly.empty` block
  never ran, so `hr` is undefined and `if not hr.empty` raises NameError;
* line 273: `hr.iloc[0]` raises IndexError when the precipitation column
  exists but the selected window is empty;
* lines 275-276: bracket access to `current["temperature"]` and
  `current["windspeed"]` raises KeyError when absent;
* lines 359-369: glance reads raise KeyError on missing daily columns;
* lines 391-397: the table rename raises ValueError on a missing column. -/
def pipeline (dat : Payload) (hoursAhead : Int) (showTable : Bool) : Except String ViewModel :=
  let current := dat.current
  let themeKey := themeStage current
  match current.time with
  | none => Except.error ("ValueError: NaTType does not support strftime")
  | some localTime =>
    let hourly := dat.hourly
    let daily := dat.daily
    match hourly.rows with
    | [] => Except.error ("NameError: name hr is not defined")
    | p :: rest =>
      let hr := selectWindow (p :: rest) (nowOf current p) hoursAhead
      match rainProbStage hourly hr with
      | Except.error e => Except.error e
      | Except.ok rainProbability =>
        match current.temperature with
        | none => Except.error ("KeyError: temperature")
        | some ct =>
          match current.windspeed with
          | none => Except.error ("KeyError: windspeed")
          | some cw =>
            match glanceStage daily with
            | Except.error e => Except.error e
            | Except.ok glance =>
              match tableStage showTable hourly hr with
              | Except.error e => Except.error e
              | Except.ok tbl =>
                Except.ok ⟨themeKey, localTime,
                  current.temperature, current.windspeed, current.winddirection,
                  feelsStage hourly hr, hr,
                  weather_message ct cw rainProbability,
                  alertsStage current hourly daily hr,
                  chartTempStage hourly hr, chartPrecipStage hourly hr,
                  chartWindStage hourly hr, glance,
                  rainBarStage hourly hr, tbl⟩

/-- A payload with every field present: current reading at hour 100, two
hourly points inside the horizon, one daily row, all columns present. -/
def payloadFull : Payload :=
  ⟨⟨some 31, some 10, some 180, some 0, some 100⟩,
   ⟨[⟨100, 30, 32, 50, 10, 20⟩, ⟨101, 29, 31, 55, 12, 30⟩], true, true, true, true, true⟩,
   ⟨[⟨35, 25, 37, 6, 18, 7⟩], true, true, true, true, true, true⟩⟩

/-- payloadFull with only the daily apparent_temperature_max column removed. -/
def payloadNoAppMax : Payload :=
  ⟨⟨some 31, some 10, some 180, some 0, some 100⟩,
   ⟨[⟨100, 30, 32, 50, 10, 20⟩, ⟨101, 29, 31, 55, 12, 30⟩], true, true, true, true, true⟩,
   ⟨[⟨35, 25, 37, 6, 18, 7⟩], true, true, false, true, true, true⟩⟩

/-- payloadFull with only the current-conditions timestamp removed. -/
def payloadNoCurTime : Payload :=
  ⟨⟨some 31, some 10, some 180, some 0, none⟩,
   ⟨[⟨100, 30, 32, 50, 10, 20⟩, ⟨101, 29, 31, 55, 12, 30⟩], true, true, true, true, true⟩,
   ⟨[⟨35, 25, 37, 6, 18, 7⟩], true, true, true, true, true, true⟩⟩

/-- A payload whose single hourly point (hour 0) lies before the current
time (hour 100), so the selected window is empty while the precipitation
column is present. -/
def payloadNoMatch : Payload :=
  ⟨⟨some 20, some 10, some 0, some 0, some 100⟩,
   ⟨[⟨0, 25, 26, 50, 10, 20⟩], true, true, true, true, true⟩,
   ⟨[], false, false, false, false, false, false⟩⟩

/-- A payload whose hourly series is empty. -/
def payloadEmptyHourly : Payload :=
  ⟨⟨some 20, some 10, some 0, some 0, some 100⟩,
   ⟨[], false, false, false, false, false⟩,
   ⟨[], false, false, false, false, false, false⟩⟩

/-- A payload without the precipitation-probability column; the window is
non-empty and the current reading is complete. -/
def payloadNoPrecip : Payload :=
  ⟨⟨some 20, some 10, some 0, some 1, some 100⟩,
   ⟨[⟨100, 20, 21, 50, 10, 0⟩], true, true, true, true, false⟩,
   ⟨[], false, false, false, false, false, false⟩⟩

/-- A payload whose hourly point lies far before the current time, with no
precipitation column, and a daily row whose uv_index_max is 9. -/
def payloadStaleWindow : Payload :=
  ⟨⟨some 20, some 10, some 0, some 1, some 500⟩,
   ⟨[⟨0, 25, 26, 50, 10, 0⟩], true, true, true, true, false⟩,
   ⟨[⟨35, 25, 37, 6, 18, 9⟩], true, true, true, true, true, true⟩⟩

/-- The view model assembled from payloadFull. -/
def vmFull : ViewModel := (pipeline payloadFull 24 true).toOption.getD default

/-- The view model assembled from payloadNoPrecip (table box unticked). -/
def vmNoPrecip : ViewModel := (pipeline payloadNoPrecip 24 false).toOption.getD default

/-- The view model assembled from payloadStaleWindow. -/
def vmStaleWindow : ViewModel := (pipeline payloadStaleWindow 24 true).toOption.getD default

/-- Sample current reading whose timestamp is hour 5. -/
def cur5 : CurrentW := ⟨some 20, some 5, none, some 0, some 5⟩

/-- Sample current reading with no weathercode field. -/
def cur9 : CurrentW := ⟨some 20, some 5, none, none, some 0⟩

/-- Sample hourly rows at hours 5 and 6. -/
def r5a : HourlyRow := ⟨5, 20, 21, 50, 10, 0⟩

def r5b : HourlyRow := ⟨6, 21, 22, 50, 10, 0⟩

/-! Helper lemmas about association-list lookup. -/

theorem lookup_eq_none_of_not_mem_keys (l : List (Int × String)) (a : Int)
    (h : a ∉ l.map Prod.fst) : l.lookup a = none := by
  induction l with
  | nil => rfl
  | cons x xs ih =>
    simp only [List.map_cons, List.mem_cons, not_or] at h
    obtain ⟨h1, h2⟩ := h
    obtain ⟨k, v⟩ := x
    simp only [List.lookup]
    have hk : (a == k) = false := by
      simp only [beq_eq_false_iff_ne]
      exact fun hka => h1 (by simp [hka])
    rw [hk]
    exact ih h2

theorem lookup_mem_values (l : List (Int × String)) (a : Int) (b : String)
    (h : l.lookup a = some b) : b ∈ l.map Prod.snd := by
  induction l with
  | nil => simp [List.lookup] at h
  | cons x xs ih =>
    obtain ⟨k, v⟩ := x
    simp only [List.lookup] at h
    by_cases hk : (a == k) = true
    · rw [hk] at h
      simp only [Option.some.injEq] at h
      simp [h]
    · rw [Bool.eq_false_iff.mpr hk] at h
      simp only [List.map_cons, List.mem_cons]
      exact Or.inr (ih h)

/-- C1: classification is total on the integers and follows the WMO table:
0 is clear; 1, 2, 3 cloudy; 45, 48 fog; the drizzle/rain/shower codes rain;
the snow codes snow; 95, 96, 99 storm; every code outside the table falls
back to cloudy, and theme selection never fails. -/
theorem classify_total_table :
    classify 0 = "clear"
    ∧ (∀ c ∈ ([1, 2, 3] : List Int), classify c = "cloudy")
    ∧ (∀ c ∈ ([45, 48] : List Int), classify c = "fog")
    ∧ (∀ c ∈ ([51, 53, 55, 56, 57, 61, 63, 65, 66, 67, 80, 81, 82] : List Int),
        classify c = "rain")
    ∧ (∀ c ∈ ([71, 73, 75, 77, 85, 86] : List Int), classify c = "snow")
    ∧ (∀ c ∈ ([95, 96, 99] : List Int), classify c = "storm")
    ∧ (∀ c : Int, c ∉ wmoKeys → classify c = "cloudy")
    ∧ (∀ c : Int, (set_theme_from_code c).isSome = true) := by
  refine ⟨by decide, by decide, by decide, by decide, by decide, by decide, ?_, ?_⟩
  · intro c hc
    unfold wmoKeys at hc
    unfold classify
    rw [lookup_eq_none_of_not_mem_keys _ _ hc]
    rfl
  · intro c
    unfold set_theme_from_code
    cases hl : WMO_MAP.lookup c with
    | none =>
      have : classify c = "cloudy" := by unfold classify; rw [hl]; rfl
      rw [this]
      decide
    | some v =>
      have hv : v ∈ WMO_MAP.map Prod.snd := lookup_mem_values _ _ _ hl
      have hc : classify c = v := by unfold classify; rw [hl]; rfl
      rw [hc]
      simp only [WMO_MAP, List.map_cons, List.map_nil, List.mem_cons,
        List.not_mem_nil, or_false] at hv
      rcases hv with rfl | rfl | rfl | rfl | rfl | rfl | rfl | rfl | rfl | rfl | rfl | rfl |
        rfl | rfl | rfl | rfl | rfl | rfl | rfl | rfl | rfl | rfl | rfl | rfl | rfl | rfl |
        rfl | rfl <;> decide

/-- Witness for C1 at concrete codes 2 and 7. -/
theorem classify_total_table_witness :
    classify 2 = "cloudy" ∧ ((7 : Int) ∉ wmoKeys ∧ classify 7 = "cloudy") :=
  ⟨classify_total_table.2.1 2 (by decide),
   by decide,
   classify_total_table.2.2.2.2.2.2.1 7 (by decide)⟩

/-- C2: the friendly message is a first-match-wins cascade in the exact
source order with strict comparisons — temperature bands first, then the
wind cascade, then the rain cascade, else the generic pleasant message; a
temperature of exactly 38 yields the sunny-caution message, exactly 30
falls through to the wind checks; the four documented examples hold; and
exactly one of the nine messages is always returned. -/
theorem weather_message_cascade :
    (∀ t w r : ℚ, 38 < t → weather_message t w r = scorchingMsg)
    ∧ (∀ t w r : ℚ, 30 < t → t ≤ 38 → weather_message t w r = sunnyMsg)
    ∧ (∀ t w r : ℚ, t < 10 → weather_message t w r = freezingMsg)
    ∧ (∀ t w r : ℚ, 10 ≤ t → t < 18 → weather_message t w r = coolMsg)
    ∧ (∀ t w r : ℚ, 18 ≤ t → t ≤ 30 → 40 < w → weather_message t w r = strongWindMsg)
    ∧ (∀ t w r : ℚ, 18 ≤ t → t ≤ 30 → w ≤ 40 → 20 < w → weather_message t w r = breezyMsg)
    ∧ (∀ t w r : ℚ, 18 ≤ t → t ≤ 30 → w ≤ 20 → 70 < r → weather_message t w r = umbrellaMsg)
    ∧ (∀ t w r : ℚ, 18 ≤ t → t ≤ 30 → w ≤ 20 → r ≤ 70 → 40 < r →
        weather_message t w r = showersMsg)
    ∧ (∀ t w r : ℚ, 18 ≤ t → t ≤ 30 → w ≤ 20 → r ≤ 40 → weather_message t w r = pleasantMsg)
    ∧ (∀ w r : ℚ, weather_message 38 w r = sunnyMsg)
    ∧ weather_message 39 0 0 = scorchingMsg
    ∧ weather_message 20 50 0 = strongWindMsg
    ∧ weather_message 20 10 80 = umbrellaMsg
    ∧ weather_message 20 10 10 = pleasantMsg
    ∧ (∀ t w r : ℚ, weather_message t w r ∈
        [scorchingMsg, sunnyMsg, freezingMsg, coolMsg, strongWindMsg, breezyMsg,
         umbrellaMsg, showersMsg, pleasantMsg]) := by
  refine ⟨?_, ?_, ?_, ?_, ?_, ?_, ?_, ?_, ?_, ?_, by decide, by decide, by decide, by decide, ?_⟩
  · intro t w r h1
    unfold weather_message
    rw [if_pos h1]
  · intro t w r h1 h2
    unfold weather_message
    rw [if_neg (not_lt.mpr h2), if_pos h1]
  · intro t w r h1
    unfold weather_message
    rw [if_neg (not_lt.mpr (by linarith)), if_neg (not_lt.mpr (by linarith)), if_pos h1]
  · intro t w r h1 h2
    unfold weather_message
    rw [if_neg (not_lt.mpr (by linarith)), if_neg (not_lt.mpr (by linarith)),
      if_neg (not_lt.mpr h1), if_pos h2]
  · intro t w r h1 h2 h3
    unfold weather_message
    rw [if_neg (not_lt.mpr (by linarith)), if_neg (not_lt.mpr h2),
      if_neg (not_lt.mpr (by linarith)), if_neg (not_lt.mpr (by linarith)), if_pos h3]
  · intro t w r h1 h2 h3 h4
    unfold weather_message
    rw [if_neg (not_lt.mpr (by linarith)), if_neg (not_lt.mpr h2),
      if_neg (not_lt.mpr (by linarith)), if_neg (not_lt.mpr (by linarith)),
      if_neg (not_lt.mpr h3), if_pos h4]
  · intro t w r h1 h2 h3 h4
    unfold weather_message
    rw [if_neg (not_lt.mpr (by linarith)), if_neg (not_lt.mpr h2),
      if_neg (not_lt.mpr (by linarith)), if_neg (not_lt.mpr (by linarith)),
      if_neg (not_lt.mpr (by linarith)), if_neg (not_lt.mpr (by linarith)), if_pos h4]
  · intro t w r h1 h2 h3 h4 h5
    unfold weather_message
    rw [if_neg (not_lt.mpr (by linarith)), if_neg (not_lt.mpr h2),
      if_neg (not_lt.mpr (by linarith)), if_neg (not_lt.mpr (by linarith)),
      if_neg (not_lt.mpr (by linarith)), if_neg (not_lt.mpr (by linarith)),
      if_neg (not_lt.mpr h4), if_pos h5]
  · intro t w r h1 h2 h3 h4
    unfold weather_message
    rw [if_neg (not_lt.mpr (by linarith)), if_neg (not_lt.mpr h2),
      if_neg (not_lt.mpr (by linarith)), if_neg (not_lt.mpr (by linarith)),
      if_neg (not_lt.mpr (by linarith)), if_neg (not_lt.mpr (by linarith)),
      if_neg (not_lt.mpr (by linarith)), if_neg (not_lt.mpr h4)]
  · intro w r
    unfold weather_message
    rw [if_neg (by norm_num), if_pos (by norm_num)]
  · intro t w r
    unfold weather_message
    split_ifs <;> simp

/-- Witness for C2: the scorching branch at (39, 0, 0) and the strong-wind
branch at (25, 45, 0). -/
theorem weather_message_cascade_witness :
    weather_message 39 0 0 = scorchingMsg ∧ weather_message 25 45 0 = strongWindMsg :=
  ⟨weather_message_cascade.1 39 0 0 (by norm_num),
   weather_message_cascade.2.2.2.2.1 25 45 0 (by norm_num) (by norm_num) (by norm_num)⟩

/-- C7: window selection is idempotent — reapplying it to its own output
with the same now and horizon returns the same sequence. -/
theorem selectWindow_idempotent (s : List HourlyRow) (now h : Int) :
    selectWindow (selectWindow s now h) now h = selectWindow s now h := by
  unfold selectWindow
  induction s with
  | nil => rfl
  | cons p ps ih =>
    by_cases hp : (decide (now ≤ p.time) && decide (p.time < now + h)) = true
    · simp only [List.filter_cons, hp, if_true, ih]
    · simp only [List.filter_cons, hp, if_false, ih]
      simp only [Bool.not_eq_true] at hp
      simp [hp, ih]

/-- C5: on a non-empty ascending series, the selected window is exactly the
points p with now ≤ p.time < now + horizon, kept as a subsequence in the
original order, where now is the current-conditions timestamp when present
and otherwise the time of the first point. -/
theorem selectWindow_exact (current : CurrentW) (p : HourlyRow) (rest : List HourlyRow) (h : Int)
    (_hsorted : List.Chain' (fun a b => a.time ≤ b.time) (p :: rest)) (_hh : 0 ≤ h) :
    (selectWindow (p :: rest) (nowOf current p) h).Sublist (p :: rest)
    ∧ (∀ q, q ∈ selectWindow (p :: rest) (nowOf current p) h ↔
        q ∈ (p :: rest) ∧ nowOf current p ≤ q.time ∧ q.time < nowOf current p + h)
    ∧ (∀ t, current.time = some t → nowOf current p = t)
    ∧ (current.time = none → nowOf current p = p.time) := by
  refine ⟨List.filter_sublist _, ?_, ?_, ?_⟩
  · intro q
    simp [selectWindow, List.mem_filter, Bool.and_eq_true, decide_eq_true_eq, and_assoc]
  · intro t ht
    simp [nowOf, ht]
  · intro ht
    simp [nowOf, ht]

/-- Witness for C5 on a two-point series at hours 5 and 6 with the current
timestamp 5 and horizon 24. -/
theorem selectWindow_exact_witness :
    (selectWindow [r5a, r5b] (nowOf cur5 r5a) 24).Sublist [r5a, r5b]
    ∧ nowOf cur5 r5a = 5 :=
  ⟨(selectWindow_exact cur5 r5a [r5b] 24 (by rw [List.chain'_pair]; norm_num [r5a, r5b])
      (by norm_num)).1,
   (selectWindow_exact cur5 r5a [r5b] 24 (by rw [List.chain'_pair]; norm_num [r5a, r5b])
      (by norm_num)).2.2.1 5 rfl⟩

/-- C9: when the current-conditions payload has no weathercode field the
theme code defaults to 1, whose condition key is cloudy and whose theme is
named Cloudy. -/
theorem theme_defaults_cloudy (c : CurrentW) (h : c.weathercode = none) :
    c.weathercode.getD 1 = 1
    ∧ themeStage c = "cloudy"
    ∧ (set_theme_from_code (c.weathercode.getD 1)).map Theme.name = some ("Cloudy") := by
  rw [h]
  refine ⟨rfl, ?_, by decide⟩
  unfold themeStage
  rw [h]
  decide

/-- Witness for C9 at a concrete current reading with no weathercode. -/
theorem theme_defaults_cloudy_witness : themeStage cur9 = "cloudy" :=
  (theme_defaults_cloudy cur9 rfl).2.1

/-! Helper lemmas about membership in the four alert branches. -/

theorem contains_decide (l : List String) (a : String) : l.contains a = decide (a ∈ l) := by
  simp [List.contains, List.elem_eq_mem]

theorem mem_heat_severe (t : ℚ) : severeHeatMsg ∈ heatAlerts t ↔ 40 ≤ t := by
  unfold heatAlerts
  split_ifs with h1 h2
  · simp [h1]
  · simp [(by decide : ¬severeHeatMsg = heatCautionMsg), h1]
  · simp [h1]

theorem mem_heat_caution (t : ℚ) : heatCautionMsg ∈ heatAlerts t ↔ (t < 40 ∧ 35 ≤ t) := by
  unfold heatAlerts
  split_ifs with h1 h2
  · simp [(by decide : ¬heatCautionMsg = severeHeatMsg), not_lt.mpr h1]
  · simp [h2, lt_of_not_ge h1]
  · simp [h2]

theorem mem_wind_gale (w : ℚ) : galeMsg ∈ windAlerts w ↔ 75 ≤ w := by
  unfold windAlerts
  split_ifs with h1 h2
  · simp [h1]
  · simp [(by decide : ¬galeMsg = highWindMsg), h1]
  · simp [h1]

theorem mem_wind_high (w : ℚ) : highWindMsg ∈ windAlerts w ↔ (w < 75 ∧ 50 ≤ w) := by
  unfold windAlerts
  split_ifs with h1 h2
  · simp [(by decide : ¬highWindMsg = galeMsg), not_lt.mpr h1]
  · simp [h2, lt_of_not_ge h1]
  · simp [h2]

theorem not_mem_heat (m : String) (t : ℚ) (h1 : m ≠ severeHeatMsg) (h2 : m ≠ heatCautionMsg) :
    m ∉ heatAlerts t := by
  unfold heatAlerts
  split_ifs <;> simp [h1, h2]

theorem not_mem_wind (m : String) (w : ℚ) (h1 : m ≠ galeMsg) (h2 : m ≠ highWindMsg) :
    m ∉ windAlerts w := by
  unfold windAlerts
  split_ifs <;> simp [h1, h2]

theorem not_mem_rain (m : String) (r : ℚ) (h1 : m ≠ rainSoonMsg) : m ∉ rainAlerts r := by
  unfold rainAlerts
  split_ifs <;> simp [h1]

theorem not_mem_uv (m : String) (u : ℚ) (h1 : m ≠ uvMsg) : m ∉ uvAlerts u := by
  unfold uvAlerts
  split_ifs <;> simp [h1]

theorem heat_filter_heat (t : ℚ) :
    ((heatAlerts t).filter (fun m => m == severeHeatMsg || m == heatCautionMsg)).length ≤ 1 := by
  unfold heatAlerts
  split_ifs <;> decide

theorem heat_filter_wind (w : ℚ) :
    (windAlerts w).filter (fun m => m == severeHeatMsg || m == heatCautionMsg) = [] := by
  unfold windAlerts
  split_ifs <;> decide

theorem heat_filter_rain (r : ℚ) :
    (rainAlerts r).filter (fun m => m == severeHeatMsg || m == heatCautionMsg) = [] := by
  unfold rainAlerts
  split_ifs <;> decide

theorem heat_filter_uv (u : ℚ) :
    (uvAlerts u).filter (fun m => m == severeHeatMsg || m == heatCautionMsg) = [] := by
  unfold uvAlerts
  split_ifs <;> decide

theorem wind_filter_heat (t : ℚ) :
    (heatAlerts t).filter (fun m => m == galeMsg || m == highWindMsg) = [] := by
  unfold heatAlerts
  split_ifs <;> decide

theorem wind_filter_wind (w : ℚ) :
    ((windAlerts w).filter (fun m => m == galeMsg || m == highWindMsg)).length ≤ 1 := by
  unfold windAlerts
  split_ifs <;> decide

theorem wind_filter_rain (r : ℚ) :
    (rainAlerts r).filter (fun m => m == galeMsg || m == highWindMsg) = [] := by
  unfold rainAlerts
  split_ifs <;> decide

theorem wind_filter_uv (u : ℚ) :
    (uvAlerts u).filter (fun m => m == galeMsg || m == highWindMsg) = [] := by
  unfold uvAlerts
  split_ifs <;> decide

/-- C3: the alert list contains the severe-heat alert exactly when the
near-term temperature is at least 40 and the heat caution exactly when it
lies in [35, 40), so at most one heat alert fires; the wind pair behaves
the same at 75 and 50; the list is always the heat, wind, rain, UV parts
concatenated in that fixed order; and computeAlerts 41 0 0 0 is exactly
the single severe-heat alert. -/
theorem computeAlerts_spec :
    (∀ t w r u : ℚ, (computeAlerts t w r u).contains severeHeatMsg = decide (40 ≤ t))
    ∧ (∀ t w r u : ℚ,
        (computeAlerts t w r u).contains heatCautionMsg = decide (t < 40 ∧ 35 ≤ t))
    ∧ (∀ t w r u : ℚ, (computeAlerts t w r u).contains galeMsg = decide (75 ≤ w))
    ∧ (∀ t w r u : ℚ,
        (computeAlerts t w r u).contains highWindMsg = decide (w < 75 ∧ 50 ≤ w))
    ∧ (∀ t w r u : ℚ, ((computeAlerts t w r u).filter
        (fun m => m == severeHeatMsg || m == heatCautionMsg)).length ≤ 1)
    ∧ (∀ t w r u : ℚ, ((computeAlerts t w r u).filter
        (fun m => m == galeMsg || m == highWindMsg)).length ≤ 1)
    ∧ (∀ t w r u : ℚ,
        computeAlerts t w r u = heatAlerts t ++ windAlerts w ++ rainAlerts r ++ uvAlerts u)
    ∧ computeAlerts 41 0 0 0 = [severeHeatMsg] := by
  refine ⟨?_, ?_, ?_, ?_, ?_, ?_, fun t w r u => rfl, by decide⟩
  · intro t w r u
    rw [contains_decide]
    refine decide_eq_decide.mpr ?_
    have hw := not_mem_wind severeHeatMsg w (by decide) (by decide)
    have hrn := not_mem_rain severeHeatMsg r (by decide)
    have hu := not_mem_uv severeHeatMsg u (by decide)
    simp [computeAlerts, List.mem_append, mem_heat_severe, hw, hrn, hu]
  · intro t w r u
    rw [contains_decide]
    refine decide_eq_decide.mpr ?_
    have hw := not_mem_wind heatCautionMsg w (by decide) (by decide)
    have hrn := not_mem_rain heatCautionMsg r (by decide)
    have hu := not_mem_uv heatCautionMsg u (by decide)
    simp [computeAlerts, List.mem_append, mem_heat_caution, hw, hrn, hu]
  · intro t w r u
    rw [contains_decide]
    refine decide_eq_decide.mpr ?_
    have hh := not_mem_heat galeMsg t (by decide) (by decide)
    have hrn := not_mem_rain galeMsg r (by decide)
    have hu := not_mem_uv galeMsg u (by decide)
    simp [computeAlerts, List.mem_append, mem_wind_gale, hh, hrn, hu]
  · intro t w r u
    rw [contains_decide]
    refine decide_eq_decide.mpr ?_
    have hh := not_mem_heat highWindMsg t (by decide) (by decide)
    have hrn := not_mem_rain highWindMsg r (by decide)
    have hu := not_mem_uv highWindMsg u (by decide)
    simp [computeAlerts, List.mem_append, mem_wind_high, hh, hrn, hu]
  · intro t w r u
    have h1 := heat_filter_wind w
    have h2 := heat_filter_rain r
    have h3 := heat_filter_uv u
    simpa [computeAlerts, List.filter_append, h1, h2, h3] using heat_filter_heat t
  · intro t w r u
    have h1 := wind_filter_heat t
    have h2 := wind_filter_rain r
    have h3 := wind_filter_uv u
    simpa [computeAlerts, List.filter_append, h1, h2, h3] using wind_filter_wind w

/-- C4: the selected window of an empty series is empty, but the downstream
consumers do not all degrade gracefully: on a non-empty hourly series whose
points all precede the current time (with the precipitation column present)
the advisory stage raises IndexError at `hr.iloc[0]`, and on an entirely
empty hourly series the alerts stage raises NameError because `hr` was
never assigned.  This contradicts the claim that every consumer skips or
emits empty output rather than throwing. -/
theorem empty_window_downstream :
    (∀ now h : Int, selectWindow [] now h = [])
    ∧ pipeline payloadNoMatch 24 true
        = Except.error ("IndexError: single positional indexer is out-of-bounds")
    ∧ pipeline payloadEmptyHourly 24 true
        = Except.error ("NameError: name hr is not defined") :=
  ⟨fun _ _ => rfl, rfl, rfl⟩

/-- C6: a payload with every field present populates every section of the
view model, but removing the single daily field apparent_temperature_max
makes the whole assembly fail with a KeyError, and removing the current
timestamp makes the header formatting raise; so assembly is not tolerant of
every individually missing field. -/
theorem assembly_section_sensitivity :
    (pipeline payloadFull 24 true = Except.ok vmFull
      ∧ vmFull.feelsCard.isSome = true
      ∧ vmFull.glance.isSome = true
      ∧ vmFull.table.isSome = true
      ∧ vmFull.rainBar.isSome = true
      ∧ vmFull.chartTemp = true
      ∧ vmFull.chartPrecip = true
      ∧ vmFull.chartWind = true
      ∧ vmFull.window.length = 2
      ∧ vmFull.alerts = []
      ∧ vmFull.friendly = sunnyMsg)
    ∧ pipeline payloadNoAppMax 24 true = Except.error ("KeyError: apparent_temperature_max")
    ∧ pipeline payloadNoCurTime 24 true
        = Except.error ("ValueError: NaTType does not support strftime") := by
  refine ⟨⟨rfl, by decide, by decide, by decide, by decide, by decide, by decide, by decide,
    by decide, by decide, by decide⟩, rfl, rfl⟩

/-- Inversion of a successful pipeline run: the alerts field is the alert
stage applied to the selected window, and the friendly message is
weather_message applied to the current temperature, the current wind speed
and the rain probability produced by the rain-probability stage. -/
theorem pipeline_ok_inv (dat : Payload) (hrsA : Int) (st : Bool) (vm : ViewModel)
    (hok : pipeline dat hrsA st = Except.ok vm) :
    vm.alerts = alertsStage dat.current dat.hourly dat.daily vm.window
    ∧ ∃ ct cw rp, dat.current.temperature = some ct ∧ dat.current.windspeed = some cw
        ∧ rainProbStage dat.hourly vm.window = Except.ok rp
        ∧ vm.friendly = weather_message ct cw rp := by
  simp only [pipeline] at hok
  split at hok
  · exact absurd hok (by simp)
  · split at hok
    · exact absurd hok (by simp)
    · split at hok
      · exact absurd hok (by simp)
      · split at hok
        · exact absurd hok (by simp)
        · split at hok
          · exact absurd hok (by simp)
          · split at hok
            · exact absurd hok (by simp)
            · split at hok
              · exact absurd hok (by simp)
              · injection hok with h
                subst h
                exact ⟨rfl, _, _, _, by assumption, by assumption, by assumption, rfl⟩

/-- The rain-probability stage yields 0 when the precipitation column is
absent (app.py line 273, else branch). -/
theorem rainProb_defaults_zero (hf : HourlyFrame) (hr : List HourlyRow)
    (h : hf.hasPrecip = false) : rainProbStage hf hr = Except.ok 0 := by
  simp [rainProbStage, h]

/-- With rain probability 0 the friendly message is never a rain message. -/
theorem weather_message_zero_rain (t w : ℚ) :
    weather_message t w 0 ≠ umbrellaMsg ∧ weather_message t w 0 ≠ showersMsg := by
  unfold weather_message
  rw [if_neg (by norm_num : ¬(0:ℚ) > 70), if_neg (by norm_num : ¬(0:ℚ) > 40)]
  constructor <;> (split_ifs <;> decide)

/-- Without the precipitation column the alert stage never emits the
rain-in-6-hours alert. -/
theorem rainSoon_not_in_alertsStage (c : CurrentW) (hf : HourlyFrame) (dl : DailyFrame)
    (hr : List HourlyRow) (h : hf.hasPrecip = false) :
    rainSoonMsg ∉ alertsStage c hf dl hr := by
  cases hr with
  | nil => simp [alertsStage]
  | cons q qs =>
    simp only [alertsStage, h, Bool.false_eq_true, if_false, List.mem_append, not_or]
    refine ⟨⟨⟨not_mem_heat _ _ (by decide) (by decide),
            not_mem_wind _ _ (by decide) (by decide)⟩, ?_⟩, ?_⟩
    · have h0 : rainAlerts 0 = [] := by norm_num [rainAlerts]
      simp [h0]
    · rcases hdl : dl.rows with _ | ⟨d, ds⟩
      · simp
      · simp only []
        split_ifs with hu
        · exact not_mem_uv _ _ (by decide)
        · simp

/-- C8: when the precipitation-probability column is absent the advisory
computations treat the rain probability as 0 instead of failing, so the
rain-in-6-hours alert is never emitted and the friendly message is never a
rain message. -/
theorem no_precip_advisories (dat : Payload) (hrsA : Int) (st : Bool) (vm : ViewModel)
    (hp : dat.hourly.hasPrecip = false) (hok : pipeline dat hrsA st = Except.ok vm) :
    rainProbStage dat.hourly vm.window = Except.ok 0
    ∧ rainSoonMsg ∉ vm.alerts
    ∧ vm.friendly ≠ umbrellaMsg
    ∧ vm.friendly ≠ showersMsg := by
  obtain ⟨ha, ct, cw, rp, hct, hcw, hrp, hfr⟩ := pipeline_ok_inv dat hrsA st vm hok
  have h0 : rainProbStage dat.hourly vm.window = Except.ok 0 :=
    rainProb_defaults_zero _ _ hp
  have hrp0 : (0 : ℚ) = rp := by
    have h2 := h0.symm.trans hrp
    injection h2
  subst hrp0
  refine ⟨h0, ?_, ?_, ?_⟩
  · rw [ha]
    exact rainSoon_not_in_alertsStage _ _ _ _ hp
  · rw [hfr]
    exact (weather_message_zero_rain ct cw).1
  · rw [hfr]
    exact (weather_message_zero_rain ct cw).2

/-- Witness for C8 on payloadNoPrecip. -/
theorem no_precip_advisories_witness :
    rainSoonMsg ∉ vmNoPrecip.alerts ∧ vmNoPrecip.friendly ≠ umbrellaMsg := by
  have h := no_precip_advisories payloadNoPrecip 24 false vmNoPrecip rfl rfl
  exact ⟨h.2.1, h.2.2.1⟩

/-- C10: on a successful run with an empty selected window the alert list
is empty: all four alert checks, including the daily-based UV check, are
guarded by the window being non-empty. -/
theorem alerts_empty_of_empty_window (dat : Payload) (hrsA : Int) (st : Bool) (vm : ViewModel)
    (hok : pipeline dat hrsA st = Except.ok vm) (hwin : vm.window = []) :
    vm.alerts = [] := by
  have h := (pipeline_ok_inv dat hrsA st vm hok).1
  rw [hwin] at h
  exact h

/-- Witness for C10: payloadStaleWindow has an empty window and a daily
uv_index_max of 9, yet the assembled alert list is empty. -/
theorem alerts_empty_of_empty_window_witness :
    vmStaleWindow.window = []
    ∧ (payloadStaleWindow.daily.rows.map DailyRow.uv_index_max) = [9]
    ∧ vmStaleWindow.alerts = [] :=
  ⟨rfl, rfl, alerts_empty_of_empty_window payloadStaleWindow 24 true vmStaleWindow rfl rfl⟩
